import Mathlib

/-!
Verification of the FMLM media-library frontend (Vue/TypeScript composables
and components) against its natural-language specification.

The TypeScript composables are embedded shallowly: reactive refs become
explicit state records, `await invoke(...)` calls to the Tauri backend become
oracle parameters (a total function, or `Except` when the try/catch paths
around a rejecting invocation matter), and the suspension point inside
`generateThumbnail` is split into an explicit start phase (code before the
`await`) and finish phase (code after it) so that interleavings of concurrent
calls can be examined.  Backend commands whose Rust sources are not part of
the frontend tree are modelled from the specification and marked as such in
their doc comments.
-/

namespace FMLM

/-- Embedding of the `ThumbnailResponse` interface of
`src/composables/useThumbnails.ts` (lines 4-9). -/
structure ThumbnailResponse where
  success : Bool
  thumbnail_path : Option String := none
  thumbnail_data_url : Option String := none
  error : Option String := none
deriving DecidableEq, Repr

/-- Lookup in an association list, first match wins.  This models
`Map.get`/`Map.has` of the `thumbnailCache` JavaScript `Map`. -/
def lookup (c : List (String × String)) (p : String) : Option String :=
  match c with
  | [] => none
  | (k, x) :: rest => if k = p then some x else lookup rest p

/-- Overwriting insertion into the association list; prepending is an
overwrite because `lookup` takes the first match (models `Map.set`). -/
def setEntry (c : List (String × String)) (p u : String) : List (String × String) :=
  (p, u) :: c

/-- Models `Set.add` of the `loadingThumbnails` JavaScript `Set`. -/
def addSet (l : List String) (p : String) : List String :=
  if p ∈ l then l else p :: l

/-- Models `Set.delete` of the `loadingThumbnails` JavaScript `Set`. -/
def removeSet (l : List String) (p : String) : List String :=
  l.filter (fun q => q ≠ p)

/-- State of one `useThumbnails()` instance, plus instrumentation of the
backend-call boundary: `inflight` holds the `generate_thumbnail` invocations
that have been issued but have not yet resolved, and `invocations` is the
cumulative log of all issued `generate_thumbnail` invocations. -/
structure ThumbState where
  cache : List (String × String)
  loading : List String
  inflight : List (String × Bool)
  invocations : List (String × Bool)
deriving DecidableEq, Repr

/-- Result of the part of `generateThumbnail` that runs before its `await`:
either the call returned immediately (cache hit) or it is suspended on the
backend invocation it just issued. -/
inductive GenPhase where
  | done (result : Option String)
  | awaitingInvoke (path : String) (isVideo : Bool)
deriving DecidableEq, Repr

/-- Embedding of `generateThumbnail` lines 28-41 of `useThumbnails.ts`: check
the cache, mark the path as loading, and issue the backend
`generate_thumbnail` invocation. -/
def genStart (s : ThumbState) (p : String) (v : Bool) : GenPhase × ThumbState :=
  match lookup s.cache p with
  | some u => (.done (some u), s)
  | none =>
      (.awaitingInvoke p v,
        { s with
            loading := addSet s.loading p,
            inflight := (p, v) :: s.inflight,
            invocations := s.invocations ++ [(p, v)] })

/-- Embedding of `generateThumbnail` lines 42-55 of `useThumbnails.ts`: the
backend invocation resolves with `r` (an `ok` response, or `error` when the
invocation rejected and the `catch` block runs).  The loading mark is removed
in both branches; on a successful response carrying a non-empty data URL
(JavaScript truthiness of `response.thumbnail_data_url`) the URL is cached
and returned, otherwise `null` is returned. -/
def genFinish (s : ThumbState) (p : String) (v : Bool)
    (r : Except String ThumbnailResponse) : Option String × ThumbState :=
  match r with
  | .error _ =>
      (none, { s with
                 loading := removeSet s.loading p,
                 inflight := s.inflight.erase (p, v) })
  | .ok resp =>
      let s1 : ThumbState :=
        { s with
            loading := removeSet s.loading p,
            inflight := s.inflight.erase (p, v) }
      match resp.success, resp.thumbnail_data_url with
      | true, some u =>
          if u = "" then (none, s1)
          else (some u, { s1 with cache := setEntry s1.cache p u })
      | true, none => (none, s1)
      | false, _ => (none, s1)

/-- A sequential (non-interleaved) run of `generateThumbnail`: the start
phase followed immediately by the finish phase with the backend's answer
`inv p v`. -/
def generateThumbnail (inv : String → Bool → Except String ThumbnailResponse)
    (s : ThumbState) (p : String) (v : Bool) : Option String × ThumbState :=
  let st := genStart s p v
  match st.1 with
  | .done r => (r, st.2)
  | .awaitingInvoke p' v' => genFinish st.2 p' v' (inv p' v')

/-- The outcome a caller of `generateThumbnail` observes for a backend
response: the data URL when the response succeeded with a truthy URL,
otherwise nothing. -/
def respUrl (r : ThumbnailResponse) : Option String :=
  match r.success, r.thumbnail_data_url with
  | true, some u => if u = "" then none else some u
  | true, none => none
  | false, _ => none

/-- Modelled from the spec: the `generate_thumbnail` backend command.  The
spec's `getOrGenerate` is content-addressed, so its outcome is a function of
the file alone (the `isVideo` flag is an attribute of the path and is
ignored by the model); failures are reported inside the response, the
command itself does not reject. -/
def okInv (gen : String → ThumbnailResponse) :
    String → Bool → Except String ThumbnailResponse :=
  fun p _ => .ok (gen p)

/-- Removing a path from the loading set after having added it is the same
as removing it from the original set. -/
theorem removeSet_addSet (l : List String) (p : String) :
    removeSet (addSet l p) p = removeSet l p := by
  unfold addSet removeSet
  split
  · rfl
  · simp

/-- The first component of a finished call is exactly the observable outcome
of the backend response. -/
theorem genFinish_ok_fst (s : ThumbState) (p : String) (v : Bool)
    (r : ThumbnailResponse) : (genFinish s p v (.ok r)).1 = respUrl r := by
  rcases r with ⟨succ, tp, url, err⟩
  cases succ <;> cases url <;> simp [genFinish, respUrl]
  split <;> simp

/-- On a cache hit, `generateThumbnail` returns the cached URL and leaves the
state untouched (lines 30-32 of `useThumbnails.ts`). -/
theorem generateThumbnail_hit (inv : String → Bool → Except String ThumbnailResponse)
    (s : ThumbState) (p : String) (v : Bool) (u : String)
    (h : lookup s.cache p = some u) :
    generateThumbnail inv s p v = (some u, s) := by
  simp [generateThumbnail, genStart, h]

/-- The value returned by a sequential `generateThumbnail` call: the cached
URL on a hit, otherwise the observable outcome of the backend response. -/
theorem generateThumbnail_fst (gen : String → ThumbnailResponse)
    (s : ThumbState) (p : String) (v : Bool) :
    (generateThumbnail (okInv gen) s p v).1
      = match lookup s.cache p with
        | some u => some u
        | none => respUrl (gen p) := by
  cases hl : lookup s.cache p <;>
    simp [generateThumbnail, genStart, okInv, hl, genFinish_ok_fst]

/-- A cache-miss call whose backend response succeeds caches the returned
URL, returns it, and logs exactly one new invocation. -/
theorem generateThumbnail_miss_ok (gen : String → ThumbnailResponse)
    (s : ThumbState) (p : String) (v : Bool) (u : String)
    (hmiss : lookup s.cache p = none) (hok : respUrl (gen p) = some u) :
    generateThumbnail (okInv gen) s p v
      = (some u,
          { cache := setEntry s.cache p u,
            loading := removeSet s.loading p,
            inflight := s.inflight,
            invocations := s.invocations ++ [(p, v)] }) := by
  rcases hg : gen p with ⟨succ, tp, url, err⟩
  rw [hg] at hok
  unfold respUrl at hok
  cases succ <;> cases url <;> simp at hok
  rcases hok with ⟨hne, hu⟩
  subst hu
  simp [generateThumbnail, genStart, okInv, hg, genFinish, hmiss, hne,
    removeSet_addSet, setEntry]

/-- A cache-miss call whose backend response fails returns nothing, leaves
the cache unchanged, and logs exactly one new invocation. -/
theorem generateThumbnail_miss_fail (gen : String → ThumbnailResponse)
    (s : ThumbState) (p : String) (v : Bool)
    (hmiss : lookup s.cache p = none) (hfail : respUrl (gen p) = none) :
    generateThumbnail (okInv gen) s p v
      = (none,
          { cache := s.cache,
            loading := removeSet s.loading p,
            inflight := s.inflight,
            invocations := s.invocations ++ [(p, v)] }) := by
  rcases hg : gen p with ⟨succ, tp, url, err⟩
  rw [hg] at hfail
  unfold respUrl at hfail
  cases succ <;> cases url <;>
    simp [generateThumbnail, genStart, okInv, hg, genFinish, hmiss,
      removeSet_addSet]
  simp at hfail
  simp [hfail]

/-- C1: the claim fails on the code.  Starting from an empty cache, two
concurrent `generateThumbnail` callers for the same uncached path `"a"` both
run the pre-`await` part of the function before either backend invocation
resolves; afterwards two `generate_thumbnail` invocations for key `"a"` are
simultaneously in flight and two invocations total have been issued, refuting
both "exactly one Generator invocation occurs" and the never-property
"never two concurrently active generation invocations for the same key". -/
theorem c1_counterexample :
    ((genStart ((genStart (⟨[], [], [], []⟩ : ThumbState) "a" false).2) "a"
          false).2.inflight.filter (fun q => q.1 = "a")).length = 2
    ∧ ((genStart ((genStart (⟨[], [], [], []⟩ : ThumbState) "a" false).2) "a"
          false).2).invocations.length = 2 := by
  decide

/-- C1 (amended): `generateThumbnail` performs no in-flight de-duplication:
every caller that starts while the path is still uncached issues its own
backend `generate_thumbnail` invocation, even when an invocation for the
same key is already in flight — the count of concurrently active invocations
for the key grows by one and the invocation log grows by one entry.  Only
callers that start after a successful completion are served from the cache
without a new invocation. -/
theorem c1_amended (s : ThumbState) (p : String) (v : Bool)
    (h : lookup s.cache p = none) :
    ((genStart s p v).2.inflight.filter (fun q => q.1 = p)).length
        = (s.inflight.filter (fun q => q.1 = p)).length + 1
    ∧ (genStart s p v).2.invocations = s.invocations ++ [(p, v)] := by
  simp [genStart, h]

/-- C1 amended witness: a second caller for path `"a"` starts while an
invocation for `"a"` is already in flight; the in-flight count for the key
rises from 1 to 2. -/
theorem c1_amended_witness :
    lookup (⟨[], ["a"], [("a", true)], [("a", true)]⟩ : ThumbState).cache "a" = none
    ∧ (((genStart (⟨[], ["a"], [("a", true)], [("a", true)]⟩ : ThumbState) "a"
            false).2.inflight.filter (fun q => q.1 = "a")).length
          = (((⟨[], ["a"], [("a", true)], [("a", true)]⟩ : ThumbState)).inflight.filter
              (fun q => q.1 = "a")).length + 1
      ∧ (genStart (⟨[], ["a"], [("a", true)], [("a", true)]⟩ : ThumbState) "a"
            false).2.invocations
          = ((⟨[], ["a"], [("a", true)], [("a", true)]⟩ : ThumbState)).invocations
              ++ [("a", false)]) :=
  ⟨by decide, c1_amended ⟨[], ["a"], [("a", true)], [("a", true)]⟩ "a" false (by decide)⟩

/-- Modelled from the spec: working state of the Generation Scheduler that
the backend runs behind the `generate_thumbnails_batch` command (its Rust
source is not part of the frontend tree; the repository documents it as
"background thumbnail generation with concurrency control, max 5
simultaneous").  A batch of requested files is split into those still
waiting for a concurrency slot, those whose Generator invocation is
currently active, and those already finished. -/
structure SchedState where
  waiting : List (String × Bool)
  active : List (String × Bool)
  finished : List (String × Bool)
deriving DecidableEq, Repr

/-- Modelled from the spec: a scheduler transition either acquires a free
concurrency slot for a waiting request — only possible while fewer than
`ceiling` Generator invocations are active — or completes an active
invocation and releases its slot. -/
inductive SchedStep (ceiling : Nat) : SchedState → SchedState → Prop
  | acquire (t : String × Bool) (rest : List (String × Bool)) (s : SchedState)
      (hw : s.waiting = t :: rest) (hlt : s.active.length < ceiling) :
      SchedStep ceiling s
        { waiting := rest, active := t :: s.active, finished := s.finished }
  | finish (t : String × Bool) (s : SchedState) (hm : t ∈ s.active) :
      SchedStep ceiling s
        { waiting := s.waiting, active := s.active.erase t,
          finished := t :: s.finished }

/-- Initial scheduler state for a batch: every request is waiting, no
Generator invocation is active. -/
def initSched (batch : List (String × Bool)) : SchedState :=
  { waiting := batch, active := [], finished := [] }

/-- C2: in every state the scheduler can reach while processing a batch, the
number of concurrently active Generator invocations is at most the
configured concurrency ceiling. -/
theorem c2_ceiling_invariant (ceiling : Nat) (batch : List (String × Bool))
    (s : SchedState)
    (h : Relation.ReflTransGen (SchedStep ceiling) (initSched batch) s) :
    s.active.length ≤ ceiling := by
  induction h with
  | refl => simp [initSched]
  | tail _ step ih =>
      cases step with
      | acquire t rest s' hw hlt => simpa using hlt
      | finish t s' hm =>
          exact le_trans (List.Sublist.length_le (List.erase_sublist _ _)) ih

/-- C2 witness: with ceiling 1, the scheduler acquires a slot for the first
request of a two-request batch; in the reached state the active count is
exactly the ceiling, and the invariant bounds it. -/
theorem c2_ceiling_invariant_witness :
    ({ waiting := [("b", false)], active := [("a", true)], finished := [] }
        : SchedState).active.length ≤ 1 :=
  c2_ceiling_invariant 1 [("a", true), ("b", false)] _
    (Relation.ReflTransGen.single
      (SchedStep.acquire ("a", true) [("b", false)] _ rfl (by decide)))

/-- Modelled from the spec: the `generate_thumbnails_batch` backend command —
functionally equivalent to issuing `getOrGenerate` for each file and
collecting results in input order; per-item failures are reported inside the
responses, the command itself does not reject. -/
def okBatch (gen : String → ThumbnailResponse) :
    List (String × Bool) → Except String (List ThumbnailResponse) :=
  fun files => .ok (files.map (fun f => gen f.1))

/-- Line 111 of `useThumbnails.ts`: mark every file of the batch as
loading. -/
def markAllLoading (l : List String) (files : List (String × Bool)) :
    List String :=
  files.foldl (fun acc f => addSet acc f.1) l

/-- Line 133 of `useThumbnails.ts` (the `catch` block): clear the loading
mark of every file of the batch. -/
def clearAllLoading (l : List String) (files : List (String × Bool)) :
    List String :=
  files.foldl (fun acc f => removeSet acc f.1) l

/-- Lines 119-127 of `useThumbnails.ts`: walk the responses by index,
clearing each file's loading mark and caching the data URL of each
successful response (JavaScript truthiness of the URL). -/
def processResponses (s : ThumbState) :
    List ((String × Bool) × ThumbnailResponse) → ThumbState
  | [] => s
  | (f, r) :: rest =>
      let s1 : ThumbState := { s with loading := removeSet s.loading f.1 }
      let s2 : ThumbState :=
        match r.success, r.thumbnail_data_url with
        | true, some u =>
            if u = "" then s1
            else { s1 with cache := setEntry s1.cache f.1 u }
        | true, none => s1
        | false, _ => s1
      processResponses s2 rest

/-- Embedding of `generateThumbnailsBatch` (lines 106-136 of
`useThumbnails.ts`): mark all files loading, invoke the backend batch
command, then update the cache from the responses; when the invocation
rejects, clear the loading marks and return the empty list. -/
def generateThumbnailsBatch
    (invB : List (String × Bool) → Except String (List ThumbnailResponse))
    (s : ThumbState) (files : List (String × Bool)) :
    List ThumbnailResponse × ThumbState :=
  let s1 : ThumbState := { s with loading := markAllLoading s.loading files }
  match invB files with
  | .error _ => ([], { s1 with loading := clearAllLoading s1.loading files })
  | .ok responses => (responses, processResponses s1 (files.zip responses))

/-- Issuing `generateThumbnail` for each file of a list in input order,
threading the composable's state and collecting each caller's outcome. -/
def seqGenerate (inv : String → Bool → Except String ThumbnailResponse)
    (s : ThumbState) :
    List (String × Bool) → List (Option String) × ThumbState
  | [] => ([], s)
  | f :: rest =>
      let r := generateThumbnail inv s f.1 f.2
      let k := seqGenerate inv r.2 rest
      (r.1 :: k.1, k.2)

/-- The frontend cache agrees with the backend outcome: every cached URL is
what the backend reports for that path.  This holds of every cache the
composable builds, since entries are only ever written from backend
responses. -/
def cacheConsistent (gen : String → ThumbnailResponse)
    (c : List (String × String)) : Prop :=
  ∀ p u, lookup c p = some u → respUrl (gen p) = some u

/-- Writing the backend's own outcome into the cache preserves agreement
with the backend. -/
theorem cacheConsistent_setEntry (gen : String → ThumbnailResponse)
    (c : List (String × String)) (p u : String)
    (h : cacheConsistent gen c) (hu : respUrl (gen p) = some u) :
    cacheConsistent gen (setEntry c p u) := by
  intro q w hq
  simp only [setEntry, lookup] at hq
  by_cases hpq : p = q
  · subst hpq
    simp at hq
    subst hq
    exact hu
  · simp [hpq] at hq
    exact h q w hq

/-- A sequential `generateThumbnail` call preserves agreement of the cache
with the backend. -/
theorem cacheConsistent_generateThumbnail (gen : String → ThumbnailResponse)
    (s : ThumbState) (p : String) (v : Bool)
    (h : cacheConsistent gen s.cache) :
    cacheConsistent gen (generateThumbnail (okInv gen) s p v).2.cache := by
  cases hl : lookup s.cache p with
  | some u =>
      rw [generateThumbnail_hit (okInv gen) s p v u hl]
      exact h
  | none =>
      cases hr : respUrl (gen p) with
      | some u =>
          rw [generateThumbnail_miss_ok gen s p v u hl hr]
          exact cacheConsistent_setEntry gen s.cache p u h hr
      | none =>
          rw [generateThumbnail_miss_fail gen s p v hl hr]
          exact h

/-- As long as the cache agrees with the backend, issuing `generateThumbnail`
file by file yields, in input order, exactly the backend outcome of each
file. -/
theorem seqGenerate_eq (gen : String → ThumbnailResponse) :
    ∀ (files : List (String × Bool)) (s : ThumbState),
      cacheConsistent gen s.cache →
      (seqGenerate (okInv gen) s files).1
        = files.map (fun f => respUrl (gen f.1)) := by
  intro files
  induction files with
  | nil => intro s _; rfl
  | cons f rest ih =>
      intro s h
      have h1 : (generateThumbnail (okInv gen) s f.1 f.2).1
          = respUrl (gen f.1) := by
        have hf := generateThumbnail_fst gen s f.1 f.2
        cases hl : lookup s.cache f.1 with
        | none => rw [hl] at hf; simpa using hf
        | some u =>
            rw [hl] at hf
            simp at hf
            rw [hf]
            exact (h f.1 u hl).symm
      simp only [seqGenerate, List.map]
      rw [h1, ih _ (cacheConsistent_generateThumbnail gen s f.1 f.2 h)]

/-- C3: against the backend batch command modelled from the spec,
`generateThumbnailsBatch` returns one response per input file with the
response at index `i` being the backend outcome of the file at index `i`
(input order preserved), and the observable outcomes coincide with issuing
`generateThumbnail` for each file and collecting the results in input
order. -/
theorem c3_batch_order (gen : String → ThumbnailResponse) (s : ThumbState)
    (files : List (String × Bool)) (h : cacheConsistent gen s.cache) :
    (generateThumbnailsBatch (okBatch gen) s files).1
        = files.map (fun f => gen f.1)
    ∧ ((generateThumbnailsBatch (okBatch gen) s files).1).map respUrl
        = (seqGenerate (okInv gen) s files).1 := by
  refine ⟨rfl, ?_⟩
  rw [show (generateThumbnailsBatch (okBatch gen) s files).1
        = files.map (fun f => gen f.1) from rfl,
      List.map_map, seqGenerate_eq gen files s h]
  rfl

/-- A sample backend outcome used by the witnesses: path `"b"` fails to
decode, every other path succeeds with a data URL derived from the path. -/
def genW : String → ThumbnailResponse :=
  fun p =>
    if p = "b" then { success := false, error := some "decode failed" }
    else { success := true, thumbnail_data_url := some ("data:" ++ p) }

/-- C3 witness: a two-file batch (one succeeding, one failing path) from an
empty cache. -/
theorem c3_batch_order_witness :
    cacheConsistent genW (⟨[], [], [], []⟩ : ThumbState).cache
    ∧ ((generateThumbnailsBatch (okBatch genW) ⟨[], [], [], []⟩
          [("a", false), ("b", true)]).1
        = [("a", false), ("b", true)].map (fun f => genW f.1)
      ∧ ((generateThumbnailsBatch (okBatch genW) ⟨[], [], [], []⟩
            [("a", false), ("b", true)]).1).map respUrl
          = (seqGenerate (okInv genW) ⟨[], [], [], []⟩
              [("a", false), ("b", true)]).1) :=
  ⟨fun p u hu => absurd hu (by simp [lookup]),
   c3_batch_order genW ⟨[], [], [], []⟩ [("a", false), ("b", true)]
     (fun p u hu => absurd hu (by simp [lookup]))⟩

/-- C4: for an uncached path whose generation succeeds, the first
`generateThumbnail` call returns the generated data URL, and a second
sequential call is a pure cache hit: it returns the identical URL
immediately, leaves the state (in particular the invocation log) completely
unchanged, and therefore performs zero backend invocations. -/
theorem c4_second_call_cached (gen : String → ThumbnailResponse)
    (s : ThumbState) (p : String) (v : Bool) (u : String)
    (hmiss : lookup s.cache p = none) (hok : respUrl (gen p) = some u) :
    (generateThumbnail (okInv gen) s p v).1 = some u
    ∧ generateThumbnail (okInv gen)
        ((generateThumbnail (okInv gen) s p v).2) p v
        = (some u, (generateThumbnail (okInv gen) s p v).2) := by
  have h1 := generateThumbnail_miss_ok gen s p v u hmiss hok
  have h2 : lookup ((generateThumbnail (okInv gen) s p v).2).cache p
      = some u := by
    rw [h1]
    simp [setEntry, lookup]
  exact ⟨by rw [h1], generateThumbnail_hit (okInv gen) _ p v u h2⟩

/-- C4 witness: the sample backend succeeds on path `"a"`; the first call
caches `"data:a"`, the second returns it with no state change. -/
theorem c4_second_call_cached_witness :
    lookup (⟨[], [], [], []⟩ : ThumbState).cache "a" = none
    ∧ respUrl (genW "a") = some "data:a"
    ∧ ((generateThumbnail (okInv genW) ⟨[], [], [], []⟩ "a" false).1
          = some "data:a"
      ∧ generateThumbnail (okInv genW)
          ((generateThumbnail (okInv genW) ⟨[], [], [], []⟩ "a" false).2) "a"
          false
          = (some "data:a",
             (generateThumbnail (okInv genW) ⟨[], [], [], []⟩ "a" false).2)) :=
  ⟨by decide, by decide,
   c4_second_call_cached genW ⟨[], [], [], []⟩ "a" false "data:a"
     (by decide) (by decide)⟩

/-- C5: a failure on one item never aborts a batch: against the backend
batch command modelled from the spec, the response list of
`generateThumbnailsBatch` carries, at every index `i`, the per-item
success-or-failure response of the file at index `i` — independently of
whether responses at other indices report failure — and indices beyond the
input length carry nothing (the output has exactly the input's length). -/
theorem c5_per_item_results (gen : String → ThumbnailResponse)
    (s : ThumbState) (files : List (String × Bool)) (i : Nat) :
    ((generateThumbnailsBatch (okBatch gen) s files).1)[i]?
      = (files[i]?).map (fun f => gen f.1) := by
  show (files.map (fun f => gen f.1))[i]? = _
  simp

/-- Embedding of `thumbnailExists` (lines 92-99 of `useThumbnails.ts`),
applied to the result of the backend `thumbnail_exists` invocation: the
backend's boolean on success, `false` when the invocation rejected and the
`catch` block runs. -/
def thumbnailExists (r : Except String Bool) : Bool :=
  match r with
  | .ok b => b
  | .error _ => false

/-- C8: `thumbnailExists` is total at the public interface: whatever the
backend invocation does, it returns a boolean — the backend's answer on
success, and `false` (never a propagated exception) when the invocation
fails for any reason. -/
theorem c8_thumbnailExists_total :
    (∀ r : Except String Bool,
        thumbnailExists r = true ∨ thumbnailExists r = false)
    ∧ (∀ e : String, thumbnailExists (.error e) = false)
    ∧ (∀ b : Bool, thumbnailExists (.ok b) = b) :=
  ⟨fun r => Bool.eq_false_or_eq_true (thumbnailExists r),
   fun _ => rfl, fun _ => rfl⟩

/-- Combined state of the thumbnail subsystem across the process boundary:
the backend's on-disk cache store (modelled from the spec: one entry per
derived key) and the composable's in-memory `thumbnailCache` map. -/
structure AppState where
  backendStore : List (String × String)
  frontCache : List (String × String)
deriving DecidableEq, Repr

/-- Modelled from the spec: the `clear_thumbnail_cache` backend command —
`clear() -> removed count` deletes all entries of the store and reports how
many were removed. -/
def backendClear (store : List (String × String)) :
    Nat × List (String × String) :=
  (store.length, [])

/-- Modelled from the spec: the `thumbnail_exists` backend command —
`exists(key) -> bool` on the store. -/
def backendExists (store : List (String × String)) (p : String) : Bool :=
  (lookup store p).isSome

/-- Embedding of `clearCache` (lines 141-149 of `useThumbnails.ts`): invoke
the backend clear command — discarding its value — then clear the local
`Map`; the function's own result is `void`. -/
def clearCache (s : AppState) : Unit × AppState :=
  let cleared := backendClear s.backendStore
  ((), { backendStore := cleared.2, frontCache := [] })

/-- The existence check a caller observes for a file: the frontend
`thumbnailExists` wrapper around the backend command on the current
store. -/
def thumbnailExistsApp (s : AppState) (p : String) : Bool :=
  thumbnailExists (.ok (backendExists s.backendStore p))

/-- A concrete backend store holding 10 entries. -/
def tenEntryStore : List (String × String) :=
  [("f0", "t0"), ("f1", "t1"), ("f2", "t2"), ("f3", "t3"), ("f4", "t4"),
   ("f5", "t5"), ("f6", "t6"), ("f7", "t7"), ("f8", "t8"), ("f9", "t9")]

/-- C6: the claim fails on the code.  `clearCache` returns `void`
(`Promise<void>`), so its return value carries no removal count: no reading
of the returned value can yield `10` on a cache holding 10 entries and `0`
on an empty cache, because the value returned is the same in both cases. -/
theorem c6_counterexample :
    ¬ ∃ f : Unit → Nat,
        f (clearCache ⟨tenEntryStore, []⟩).1 = 10
        ∧ f (clearCache ⟨[], []⟩).1 = 0 := by
  rintro ⟨f, h10, h0⟩
  have : (10 : Nat) = 0 := by
    rw [← h10, ← h0]
  exact absurd this (by decide)

/-- C6 (amended): `clearCache` returns no count — its result is `void`,
discarding the removed count the backend clear command reports (which is
the number of entries, e.g. 10 for a 10-entry cache) — and after it
completes both caches are empty, so `thumbnailExists` returns `false` for
every file, in particular every previously cached one. -/
theorem c6_amended (s : AppState) (p : String) :
    (clearCache s).1 = ()
    ∧ (backendClear s.backendStore).1 = s.backendStore.length
    ∧ (backendClear tenEntryStore).1 = 10
    ∧ (clearCache s).2.backendStore = []
    ∧ (clearCache s).2.frontCache = []
    ∧ thumbnailExistsApp (clearCache s).2 p = false :=
  ⟨rfl, rfl, rfl, rfl, rfl, rfl⟩

/-- Embedding of the `MediaType` union of `useMediaScanner.ts`. -/
inductive MediaType where
  | image
  | video
  | unknown
deriving DecidableEq, Repr

/-- Embedding of the `MediaFile` interface of `useMediaScanner.ts`
(lines 7-14). -/
structure MediaFile where
  path : String
  name : String
  size : Nat
  modified : Nat
  file_type : String
  media_type : MediaType
deriving DecidableEq, Repr

/-- Embedding of the reactive state of `useMediaScanner` (lines 28-32 of
`useMediaScanner.ts`). -/
structure ScannerState where
  mediaFiles : List MediaFile
  isLoading : Bool
  error : Option String
  selectedPath : Option String
  selectedFolderId : Option Nat
deriving DecidableEq, Repr

/-- Embedding of `scanDirectory` (lines 40-76 of `useMediaScanner.ts`).
`scanInv` is the result of the backend `scan_directory` invocation and
`dbInv` the result of `db.addScannedFolder`; an `error` value means the
corresponding `await` rejected and control transfers to the `catch` block,
which records the message, empties the file list and clears the folder id;
the `finally` block clears the loading flag on every path. -/
def scanDirectory (scanInv : Except String (List MediaFile))
    (dbInv : Except String Nat) (s : ScannerState) (path : String) :
    Option Nat × ScannerState :=
  let s0 : ScannerState :=
    { s with isLoading := true, error := none, selectedPath := some path }
  match scanInv with
  | .error e =>
      (none,
        { s0 with
            error := some e, mediaFiles := [], selectedFolderId := none,
            isLoading := false })
  | .ok result =>
      let s1 : ScannerState := { s0 with mediaFiles := result }
      match dbInv with
      | .error e =>
          (none,
            { s1 with
                error := some e, mediaFiles := [], selectedFolderId := none,
                isLoading := false })
      | .ok folderId =>
          (some folderId,
            { s1 with selectedFolderId := some folderId, isLoading := false })

/-- C7: if the scan of the root path fails, `scanDirectory` surfaces the
failure to the caller — the error state is set to the failure's message and
`null` is returned instead of a folder id — and on completion the media-file
list is empty and the loading flag is cleared. -/
theorem c7_scan_failure (scanInv : Except String (List MediaFile))
    (dbInv : Except String Nat) (s : ScannerState) (path : String)
    (e : String) (h : scanInv = .error e) :
    (scanDirectory scanInv dbInv s path).1 = none
    ∧ (scanDirectory scanInv dbInv s path).2.error = some e
    ∧ (scanDirectory scanInv dbInv s path).2.mediaFiles = []
    ∧ (scanDirectory scanInv dbInv s path).2.isLoading = false := by
  subst h
  exact ⟨rfl, rfl, rfl, rfl⟩

/-- C7 witness: scanning an unreadable root from the pristine scanner
state. -/
theorem c7_scan_failure_witness :
    ((.error "permission denied" : Except String (List MediaFile))
        = .error "permission denied")
    ∧ ((scanDirectory (.error "permission denied") (.ok 1)
          ⟨[], false, none, none, none⟩ "/photos").1 = none
      ∧ (scanDirectory (.error "permission denied") (.ok 1)
          ⟨[], false, none, none, none⟩ "/photos").2.error
            = some "permission denied"
      ∧ (scanDirectory (.error "permission denied") (.ok 1)
          ⟨[], false, none, none, none⟩ "/photos").2.mediaFiles = []
      ∧ (scanDirectory (.error "permission denied") (.ok 1)
          ⟨[], false, none, none, none⟩ "/photos").2.isLoading = false) :=
  ⟨rfl,
   c7_scan_failure (.error "permission denied") (.ok 1)
     ⟨[], false, none, none, none⟩ "/photos" "permission denied" rfl⟩

/-- Embedding of the `side` option of `useResizable.ts`. -/
inductive PanelSide where
  | left
  | right
deriving DecidableEq, Repr

/-- Embedding of `UseResizableOptions` (lines 3-9 of `useResizable.ts`),
after the destructuring default `minWidth = 200` of line 15 has been
applied. -/
structure ResizeOpts where
  minWidth : Nat := 200
  maxWidth : Option Nat := none
  maxWidthPercent : Option Nat := none
  defaultWidth : Int
  side : PanelSide
deriving DecidableEq, Repr

/-- The `maxWidth || 800` fallback of line 28 of `useResizable.ts`
(JavaScript truthiness: an absent or zero `maxWidth` falls back to 800). -/
def fallbackMax (o : ResizeOpts) : Nat :=
  match o.maxWidth with
  | some m => if m = 0 then 800 else m
  | none => 800

/-- Embedding of the `effectiveMaxWidth` computed value (lines 24-29 of
`useResizable.ts`): `Math.floor(window.innerWidth * (maxWidthPercent / 100))`
when `maxWidthPercent` is truthy, otherwise `maxWidth || 800`.  The floored
floating-point product is modelled as natural-number division. -/
def effectiveMaxWidth (o : ResizeOpts) (windowWidth : Nat) : Nat :=
  match o.maxWidthPercent with
  | some pct => if pct = 0 then fallbackMax o else windowWidth * pct / 100
  | none => fallbackMax o

/-- Embedding of the mutable state of one `useResizable` instance: the
`width` ref plus the drag bookkeeping of lines 17-21. -/
structure ResizeState where
  width : Int
  isResizing : Bool
  startX : Int
  startWidth : Int
deriving DecidableEq, Repr

/-- Embedding of the `resize` mousemove handler (lines 43-54 of
`useResizable.ts`): while a drag is in progress, the signed pointer delta is
added to the width at drag start and the result is clamped via
`Math.max(minWidth, Math.min(effectiveMaxWidth, newWidth))`; outside a drag
the event is ignored. -/
def resize (o : ResizeOpts) (windowWidth : Nat) (s : ResizeState)
    (clientX : Int) : ResizeState :=
  if s.isResizing then
    let delta : Int :=
      match o.side with
      | .left => clientX - s.startX
      | .right => s.startX - clientX
    let newWidth : Int := s.startWidth + delta
    { s with
        width :=
          max (o.minWidth : Int)
            (min (effectiveMaxWidth o windowWidth : Int) newWidth) }
  else s

/-- C9: the claim fails on the code.  With `minWidth := 300` and
`maxWidthPercent := 70` (the options `MediaInfoPanel.vue` passes) on a
100-pixel-wide window, `effectiveMaxWidth` is 70 < `minWidth`; the clamp
`max minWidth (min effectiveMaxWidth newWidth)` then yields 300, so after a
resize step during a drag the width violates `width ≤ effectiveMaxWidth`. -/
theorem c9_counterexample :
    ¬ ((({ minWidth := 300, maxWidthPercent := some 70, defaultWidth := 384,
            side := .right } : ResizeOpts).minWidth : Int)
          ≤ (resize
              { minWidth := 300, maxWidthPercent := some 70,
                defaultWidth := 384, side := .right } 100
              ⟨384, true, 0, 384⟩ 0).width
      ∧ (resize
            { minWidth := 300, maxWidthPercent := some 70,
              defaultWidth := 384, side := .right } 100
            ⟨384, true, 0, 384⟩ 0).width
          ≤ (effectiveMaxWidth
              { minWidth := 300, maxWidthPercent := some 70,
                defaultWidth := 384, side := .right } 100 : Int)) := by
  decide

/-- C9 (amended): whenever the configuration is coherent for the current
window — `minWidth ≤ effectiveMaxWidth`, which holds for the panels' actual
options on any window at least `⌈minWidth·100/maxWidthPercent⌉` pixels
wide — every resize step processed while a drag is in progress leaves the
panel width within `[minWidth, effectiveMaxWidth]`; when
`effectiveMaxWidth < minWidth` the clamp instead pins the width to
`minWidth`, above the upper bound. -/
theorem c9_amended (o : ResizeOpts) (windowWidth : Nat) (s : ResizeState)
    (clientX : Int) (hr : s.isResizing = true)
    (h : o.minWidth ≤ effectiveMaxWidth o windowWidth) :
    (o.minWidth : Int) ≤ (resize o windowWidth s clientX).width
    ∧ (resize o windowWidth s clientX).width
        ≤ (effectiveMaxWidth o windowWidth : Int) := by
  simp only [resize, hr, if_true]
  refine ⟨le_max_left _ _, max_le ?_ (min_le_left _ _)⟩
  exact_mod_cast h

/-- C9 amended witness: the `MediaInfoPanel.vue` options on a 1000-pixel
window (effective maximum 700) during a drag step. -/
theorem c9_amended_witness :
    ((⟨384, true, 0, 384⟩ : ResizeState).isResizing = true
    ∧ ({ minWidth := 300, maxWidthPercent := some 70, defaultWidth := 384,
          side := .right } : ResizeOpts).minWidth
        ≤ effectiveMaxWidth
            { minWidth := 300, maxWidthPercent := some 70,
              defaultWidth := 384, side := .right } 1000)
    ∧ ((({ minWidth := 300, maxWidthPercent := some 70, defaultWidth := 384,
            side := .right } : ResizeOpts).minWidth : Int)
          ≤ (resize
              { minWidth := 300, maxWidthPercent := some 70,
                defaultWidth := 384, side := .right } 1000
              ⟨384, true, 0, 384⟩ 120).width
      ∧ (resize
            { minWidth := 300, maxWidthPercent := some 70,
              defaultWidth := 384, side := .right } 1000
            ⟨384, true, 0, 384⟩ 120).width
          ≤ (effectiveMaxWidth
              { minWidth := 300, maxWidthPercent := some 70,
                defaultWidth := 384, side := .right } 1000 : Int)) :=
  ⟨⟨rfl, by decide⟩,
   c9_amended
     { minWidth := 300, maxWidthPercent := some 70, defaultWidth := 384,
       side := .right } 1000 ⟨384, true, 0, 384⟩ 120 rfl (by decide)⟩

namespace ThumbnailGrid

/-- Unit labels, the `sizes` array of `formatFileSize`. -/
def sizes : List String := ["B", "KB", "MB", "GB"]

/-- Fuel-driven floored base-1024 logarithm: `log1024Aux fuel b` is the
largest `i` with `1024 ^ i ≤ b` (and 0 for `b < 1024`), provided
`fuel ≥ b`; this models the floored quotient
`Math.log(bytes) / Math.log(1024)`. -/
def log1024Aux : Nat → Nat → Nat
  | 0, _ => 0
  | fuel + 1, b => if b < 1024 then 0 else log1024Aux fuel (b / 1024) + 1

/-- Floored base-1024 logarithm of a byte count. -/
def log1024 (b : Nat) : Nat := log1024Aux b b

/-- Rendering of `parseFloat(x.toFixed(2))` for a value given in hundredths:
two decimal places with trailing zeros stripped, the decimal point dropped
when nothing follows it. -/
def formatHundredths (q : Nat) : String :=
  let ip := q / 100
  let fr := q % 100
  if fr = 0 then toString ip
  else if fr % 10 = 0 then toString ip ++ "." ++ toString (fr / 10)
  else if fr < 10 then toString ip ++ ".0" ++ toString fr
  else toString ip ++ "." ++ toString fr

/-- Embedding of `formatFileSize` of `ThumbnailGrid.vue` (lines 100-106).
The floored quotient `Math.log(bytes) / Math.log(1024)` is modelled as the
integer base-1024 logarithm, and `parseFloat((bytes / 1024^i).toFixed(2))`
as exact rounding to hundredths rendered by `formatHundredths`; an index
past the `sizes` array renders as the string `"undefined"`, as in
JavaScript. -/
def formatFileSize (bytes : Nat) : String :=
  if bytes = 0 then "0 B"
  else
    let i := log1024 bytes
    let q := (bytes * 200 / 1024 ^ i + 1) / 2
    formatHundredths q ++ " " ++ (sizes[i]?.getD "undefined")

end ThumbnailGrid

namespace MediaInfoPanel

/-- Unit labels, the `sizes` array of `formatFileSize`. -/
def sizes : List String := ["B", "KB", "MB", "GB"]

/-- Fuel-driven floored base-1024 logarithm: `log1024Aux fuel b` is the
largest `i` with `1024 ^ i ≤ b` (and 0 for `b < 1024`), provided
`fuel ≥ b`; this models the floored quotient
`Math.log(bytes) / Math.log(1024)`. -/
def log1024Aux : Nat → Nat → Nat
  | 0, _ => 0
  | fuel + 1, b => if b < 1024 then 0 else log1024Aux fuel (b / 1024) + 1

/-- Floored base-1024 logarithm of a byte count. -/
def log1024 (b : Nat) : Nat := log1024Aux b b

/-- Rendering of `parseFloat(x.toFixed(2))` for a value given in hundredths:
two decimal places with trailing zeros stripped, the decimal point dropped
when nothing follows it. -/
def formatHundredths (q : Nat) : String :=
  let ip := q / 100
  let fr := q % 100
  if fr = 0 then toString ip
  else if fr % 10 = 0 then toString ip ++ "." ++ toString (fr / 10)
  else if fr < 10 then toString ip ++ ".0" ++ toString fr
  else toString ip ++ "." ++ toString fr

/-- Embedding of `formatFileSize` of `MediaInfoPanel.vue` (lines 73-79),
textually identical to the copy in `ThumbnailGrid.vue`; modelled with the
same idealization of `Math.log` and `toFixed`/`parseFloat`, so the
duplicate-equivalence claim is unaffected by the idealization. -/
def formatFileSize (bytes : Nat) : String :=
  if bytes = 0 then "0 B"
  else
    let i := log1024 bytes
    let q := (bytes * 200 / 1024 ^ i + 1) / 2
    formatHundredths q ++ " " ++ (sizes[i]?.getD "undefined")

end MediaInfoPanel

/-- The duplicated logarithm helpers agree. -/
theorem log1024Aux_eq (fuel : Nat) : ∀ b : Nat,
    ThumbnailGrid.log1024Aux fuel b = MediaInfoPanel.log1024Aux fuel b := by
  induction fuel with
  | zero => intro b; rfl
  | succ n ih =>
      intro b
      unfold ThumbnailGrid.log1024Aux MediaInfoPanel.log1024Aux
      by_cases h : b < 1024 <;> simp [h, ih]

/-- The duplicated logarithm helpers agree. -/
theorem log1024_eq (b : Nat) :
    ThumbnailGrid.log1024 b = MediaInfoPanel.log1024 b :=
  log1024Aux_eq b b

/-- The duplicated hundredths renderers agree. -/
theorem formatHundredths_eq (q : Nat) :
    ThumbnailGrid.formatHundredths q = MediaInfoPanel.formatHundredths q := by
  unfold ThumbnailGrid.formatHundredths MediaInfoPanel.formatHundredths
  rfl

/-- The duplicated unit-label arrays agree. -/
theorem sizes_eq : ThumbnailGrid.sizes = MediaInfoPanel.sizes := rfl

/-- C10: the `formatFileSize` helpers duplicated in `ThumbnailGrid.vue` and
`MediaInfoPanel.vue` are extensionally equal — for every byte count both
return the same formatted string — and both return `"0 B"` for 0 and the
same unit with a two-decimal value otherwise (e.g. `"1.5 KB"` for 1536
bytes). -/
theorem c10_formatFileSize_eq :
    (∀ bytes : Nat,
        ThumbnailGrid.formatFileSize bytes
          = MediaInfoPanel.formatFileSize bytes)
    ∧ ThumbnailGrid.formatFileSize 0 = "0 B"
    ∧ ThumbnailGrid.formatFileSize 1536 = "1.5 KB"
    ∧ MediaInfoPanel.formatFileSize 1536 = "1.5 KB" :=
  ⟨fun bytes => by
      simp only [ThumbnailGrid.formatFileSize, MediaInfoPanel.formatFileSize,
        log1024_eq, formatHundredths_eq, sizes_eq],
   rfl, by decide, by decide⟩

end FMLM
